import Mathlib

/-!
Verification development for the search-engine protocol adapter
(`proto_rpc_adapter.cpp`) and the `SearchReply::Coverage` record
(`searchreply.h`).

Bytes are modelled as natural numbers, byte buffers as `List Nat`.
The external collaborators (protobuf serialization, the vespalib
compressor) are modelled abstractly as records of functions together
with the contracts the adapter relies on; the adapter code itself is
translated function by function from the source.
-/

namespace Vespa

/-- Compression configuration, mirroring `vespalib::compression::CompressionConfig`
as built by `get_compression_config()`: `(type, level, 80, limit)`. -/
structure CompressionConfig where
  ctype : Nat
  level : Nat
  threshold : Nat
  minSize : Nat

/-- Modelled from the spec: the concrete compression algorithms are out of
scope ("treated as a pluggable enumeration").  `compress cfg bytes` returns
the algorithm byte actually used (the source's `CompressionConfig::Type`
return value of `compress`) together with the possibly-compressed payload;
`decompress type expectedSize blob` returns the decompressed bytes. -/
structure Compressor where
  compress : CompressionConfig → List Nat → Nat × List Nat
  decompress : Nat → Nat → List Nat → List Nat

/-- Contract of a lossless compressor: decompressing what `compress`
produced, under the algorithm byte it reported and the original length,
gives back the original bytes. -/
def Compressor.lossless (c : Compressor) : Prop :=
  ∀ cfg b, c.decompress (c.compress cfg b).1 b.length (c.compress cfg b).2 = b

/-- Contract: the algorithm tag reported by `compress` fits in the `u8`
wire field (the source's enum values are 0, 6 and 7). -/
def Compressor.typeIsByte (c : Compressor) : Prop :=
  ∀ cfg b, (c.compress cfg b).1 < 256

/-- Modelled from the spec: protobuf serialization of a typed message
(`SerializeAsString` / `ParseFromArray`), external to this repository. -/
structure ProtoCodec (α : Type) where
  serializeAsString : α → List Nat
  parseFromArray : List Nat → Option α

/-- Contract of protobuf: parsing a serialized message gives the message back. -/
def ProtoCodec.faithful (p : ProtoCodec α) : Prop :=
  ∀ m, p.parseFromArray (p.serializeAsString m) = some m

/-- The wire envelope `(u8 algorithm, i32 uncompressed_size, bytes payload)`
shared by all three RPC methods. -/
structure Envelope where
  encoding : Nat
  uncompressed_size : Nat
  payload : List Nat
deriving DecidableEq

/-- Outcome of `decode_message`: success (`return true` with `dst` filled),
parse failure (`return false`), or failure of the
`assert(uncompressed_size == uncompressed.getDataLen())`, which terminates
the process. -/
inductive DecodeOutcome (α : Type) where
  | ok (msg : α)
  | parseError
  | assertFailure
deriving DecidableEq

/-- Embedding of `encode_message` (proto_rpc_adapter.cpp:37-47): serialize,
compress under the current configuration, then write the algorithm byte
(`AddInt8`, truncating to `u8`), the pre-compression length (`AddInt32`,
truncating to `u32`) and the compressed payload. -/
def encode_message (c : Compressor) (p : ProtoCodec α) (cfg : CompressionConfig)
    (src : α) : Envelope :=
  let output := p.serializeAsString src
  let compressed := c.compress cfg output
  { encoding := compressed.1 % 256
    uncompressed_size := output.length % 2 ^ 32
    payload := compressed.2 }

/-- Embedding of `decode_message` (proto_rpc_adapter.cpp:49-59): decompress
the payload under the declared algorithm and size, assert that the
decompressed length equals the declared `uncompressed_size`, then parse. -/
def decode_message (c : Compressor) (p : ProtoCodec α) (src : Envelope) :
    DecodeOutcome α :=
  if src.uncompressed_size =
      (c.decompress src.encoding src.uncompressed_size src.payload).length then
    match p.parseFromArray (c.decompress src.encoding src.uncompressed_size src.payload) with
    | some m => .ok m
    | none => .parseError
  else .assertFailure

/-- Concrete raw (algorithm 0) compressor instance: `compress` never
compresses and reports type 0, `decompress` returns the blob unchanged —
the behavior of the source's NONE compression type. -/
def rawCompressor : Compressor :=
  { compress := fun _ b => (0, b)
    decompress := fun _ _ blob => blob }

/-- Concrete message model used to exercise the generic codec: a message is
a natural number `n`, serialized as `n` bytes of value 1; any buffer holding
a byte other than 1 fails to parse. -/
def unaryCodec : ProtoCodec Nat :=
  { serializeAsString := fun n => List.replicate n 1
    parseFromArray := fun bs => if bs.all (· = 1) then some bs.length else none }

/-- Default-valued configuration used for concrete instantiations. -/
def cfg0 : CompressionConfig := ⟨0, 0, 80, 0⟩

/-- Modelled from the spec: `RelativeTime` is a relative-time clock snapshot;
the snapshot of the current clock is taken when the `RelativeTime` object is
created (the decoders create it as `RelativeTime(std::make_unique<FastosClock>())`
in their member-initializer list). `start` is the captured current time. -/
structure RelativeTime where
  start : Nat
deriving DecidableEq

/-- Domain search request: the moved-in relative-time clock plus the fields
filled in by `ProtoConverter::search_request_from_proto` (the converter is
external to this repository and kept abstract as the `fields` payload). -/
structure SearchRequest (β : Type) where
  relative_time : RelativeTime
  fields : β
deriving DecidableEq

/-- Domain docsum request: built as `DocsumRequest(std::move(relative_time), true)`
and then filled by `ProtoConverter::docsum_request_from_proto`. -/
structure DocsumRequest (β : Type) where
  relative_time : RelativeTime
  useRootSlime : Bool
  fields : β
deriving DecidableEq

/-- Result of a decoder's `decode()`: `absent` is the `nullptr` return on a
parse failure, `request` the fully converted domain request, and `fatal`
the assertion failure inside `decode_message` (no value is returned, the
process terminates). -/
inductive DecodeResult (ρ : Type) where
  | fatal
  | absent
  | request (r : ρ)
deriving DecidableEq

/-- Embedding of `SearchRequestDecoder` (proto_rpc_adapter.cpp:63-78): it
stores the call's parameters and a `RelativeTime` created in its
constructor.  `now` is the clock value current when the constructor runs. -/
structure SearchRequestDecoder where
  rpcParams : Envelope
  relative_time : RelativeTime

/-- Embedding of `search_request_decoder` (proto_rpc_adapter.cpp:80-82),
which constructs the decoder at dispatch time. -/
def search_request_decoder (params : Envelope) (now : Nat) : SearchRequestDecoder :=
  { rpcParams := params, relative_time := { start := now } }

/-- Embedding of `SearchRequestDecoder::decode` (proto_rpc_adapter.cpp:68-77):
decode the message; on failure log and return null; on success build the
request from the *stored* `relative_time` (moved, not re-captured) and run
the converter.  `nowAtDecode` is the clock value current at the moment
`decode()` runs; the source body never reads the clock, so it is unused. -/
def SearchRequestDecoder.decode (c : Compressor) (p : ProtoCodec α) (conv : α → β)
    (d : SearchRequestDecoder) (nowAtDecode : Nat) : DecodeResult (SearchRequest β) :=
  match decode_message c p d.rpcParams with
  | .assertFailure => .fatal
  | .parseError => .absent
  | .ok msg => .request { relative_time := d.relative_time, fields := conv msg }

/-- Embedding of `DocsumRequestDecoder` (proto_rpc_adapter.cpp:98-113). -/
structure DocsumRequestDecoder where
  rpcParams : Envelope
  relative_time : RelativeTime

/-- Embedding of `docsum_request_decoder` (proto_rpc_adapter.cpp:115-117). -/
def docsum_request_decoder (params : Envelope) (now : Nat) : DocsumRequestDecoder :=
  { rpcParams := params, relative_time := { start := now } }

/-- Embedding of `DocsumRequestDecoder::decode` (proto_rpc_adapter.cpp:103-112);
the request is built as `DocsumRequest(std::move(relative_time), true)`. -/
def DocsumRequestDecoder.decode (c : Compressor) (p : ProtoCodec α) (conv : α → β)
    (d : DocsumRequestDecoder) (nowAtDecode : Nat) : DecodeResult (DocsumRequest β) :=
  match decode_message c p d.rpcParams with
  | .assertFailure => .fatal
  | .parseError => .absent
  | .ok msg =>
      .request { relative_time := d.relative_time, useRootSlime := true, fields := conv msg }

/-- Modelled from the spec: a domain server (`SearchServer` / `DocsumServer`),
an external collaborator, "either returns a reply synchronously (non-null)
... or returns nothing, signaling the handler will be invoked later by the
domain server's own asynchronous completion path".  `syncReply` is the value
returned from the server call; `asyncFinalizes` counts how many times the
server's asynchronous path will invoke the completion handler later. -/
structure DomainServerModel (σ : Type) where
  syncReply : Option σ
  asyncFinalizes : Nat

/-- The spec's contract for a well-behaved domain server: it completes
asynchronously exactly once when it returned null, and never when it
already returned a synchronous reply. -/
def DomainServerModel.contractOK (s : DomainServerModel σ) : Prop :=
  s.asyncFinalizes = if s.syncReply.isSome then 0 else 1

/-- Observable steps of an adapter dispatch method, in program order. -/
inductive AdapterEvent (σ : Type) where
  | detach
  | createHandler
  | invokeServer
  | inlineFinalize (reply : σ)
deriving DecidableEq

/-- Embedding of `ProtoRpcAdapter::rpc_search` (proto_rpc_adapter.cpp:191-200):
detach the call, create the completion handler in the call's stash, invoke
the search server, and invoke the handler inline iff the returned reply is
non-null. -/
def rpc_search (server : DomainServerModel σ) : List (AdapterEvent σ) :=
  [.detach, .createHandler, .invokeServer] ++
    (match server.syncReply with
     | some r => [.inlineFinalize r]
     | none => [])

/-- Embedding of `ProtoRpcAdapter::rpc_getDocsums` (proto_rpc_adapter.cpp:202-211),
identical in shape to `rpc_search` with the docsum server and handler. -/
def rpc_getDocsums (server : DomainServerModel σ) : List (AdapterEvent σ) :=
  [.detach, .createHandler, .invokeServer] ++
    (match server.syncReply with
     | some r => [.inlineFinalize r]
     | none => [])

/-- Number of inline completion-handler invocations in an adapter trace. -/
def inlineFinalizeCount : List (AdapterEvent σ) → Nat
  | [] => 0
  | .inlineFinalize _ :: rest => 1 + inlineFinalizeCount rest
  | .detach :: rest => inlineFinalizeCount rest
  | .createHandler :: rest => inlineFinalizeCount rest
  | .invokeServer :: rest => inlineFinalizeCount rest

/-- Call-level error codes set via `SetError`; the adapter only ever uses
`FRTE_RPC_METHOD_FAILED` (a constant of the external fnet transport). -/
inductive ErrorCode where
  | methodFailed
deriving DecidableEq

/-- Observable outcome of `rpc_ping` for one call: assertion failure inside
`decode_message`; a call-level method error (`SetError` + `Return`, no
reply envelope); an inline reply envelope encoded by the completion
handler; or a deferred completion (server returned null). -/
inductive PingOutcome where
  | fatal
  | methodError (code : ErrorCode) (msg : String)
  | inlineReply (envelope : Envelope)
  | deferred
deriving DecidableEq

/-- Embedding of `ProtoRpcAdapter::rpc_ping` (proto_rpc_adapter.cpp:213-231):
decode eagerly; on success convert to a `MonitorRequest` (via the external
`monitor_request_from_proto`, abstracted as `conv`), create the completion
handler and invoke the monitor server, finalizing inline iff the reply is
non-null (the handler encodes the reply via `monitor_reply_to_proto`,
abstracted as `replyToProto`, and `encode_message`); on decode failure log
and answer with a call-level method error.  The returned `Bool` records
whether the monitor server was invoked. -/
def rpc_ping (c : Compressor) (p : ProtoCodec α) (q : ProtoCodec τ)
    (cfg : CompressionConfig) (conv : α → β) (replyToProto : ρ → τ)
    (server : β → Option ρ) (params : Envelope) : PingOutcome × Bool :=
  match decode_message c p params with
  | .assertFailure => (.fatal, false)
  | .parseError => (.methodError .methodFailed "malformed monitor request", false)
  | .ok msg =>
      match server (conv msg) with
      | some reply => (.inlineReply (encode_message c q cfg (replyToProto reply)), true)
      | none => (.deferred, true)

/-- One value slot of an `FRT_Values` array, as used by the fixed
`(u8, i32, bytes)` signature and by malformed return shapes. -/
inductive FRT_Value where
  | int8 (v : Nat)
  | int32 (v : Nat)
  | int64 (v : Nat)
  | data (bytes : List Nat)
deriving DecidableEq

/-- Type character of a value, as used by FRT typestrings
("b" = u8, "i" = i32, "l" = i64, "x" = bytes). -/
def FRT_Value.typeChar : FRT_Value → Char
  | .int8 _ => 'b'
  | .int32 _ => 'i'
  | .int64 _ => 'l'
  | .data _ => 'x'

/-- Embedding of `FRT_RPCRequest::CheckReturnTypes`: the completed call's
return values must match the given typestring exactly. -/
def CheckReturnTypes (ret : List FRT_Value) (spec : List Char) : Bool :=
  ret.map FRT_Value.typeChar == spec

/-- The fixed signature typestring "bix" shared by all three methods. -/
def bixSpec : List Char := ['b', 'i', 'x']

/-- Result of a client-side reply decode: shape mismatch (fails before any
decompression), decode failure, assertion failure inside `decode_message`,
or a successfully decoded wire-level reply. -/
inductive ClientDecodeResult (α : Type) where
  | shapeError
  | decodeFailed
  | fatal
  | ok (msg : α)
deriving DecidableEq

/-- Projection of a `decode_message` outcome into the client-side result. -/
def toClientResult : DecodeOutcome α → ClientDecodeResult α
  | .ok m => .ok m
  | .parseError => .decodeFailed
  | .assertFailure => .fatal

/-- Shared body of the three client-side reply decoders
(`CheckReturnTypes("bix") && decode_message(*src.GetReturn(), dst)`):
the second component counts how many times the decompressor ran. -/
def decode_reply (c : Compressor) (p : ProtoCodec α) (ret : List FRT_Value) :
    ClientDecodeResult α × Nat :=
  if CheckReturnTypes ret bixSpec then
    match ret with
    | [.int8 e, .int32 s, .data bytes] =>
        (toClientResult (decode_message c p
          { encoding := e, uncompressed_size := s, payload := bytes }), 1)
    | _ => (.shapeError, 0)
  else (.shapeError, 0)

/-- Embedding of `ProtoRpcAdapter::decode_search_reply` (proto_rpc_adapter.cpp:242-246). -/
def decode_search_reply (c : Compressor) (p : ProtoCodec α) (ret : List FRT_Value) :
    ClientDecodeResult α × Nat :=
  decode_reply c p ret

/-- Embedding of `ProtoRpcAdapter::decode_docsum_reply` (proto_rpc_adapter.cpp:255-259). -/
def decode_docsum_reply (c : Compressor) (p : ProtoCodec α) (ret : List FRT_Value) :
    ClientDecodeResult α × Nat :=
  decode_reply c p ret

/-- Embedding of `ProtoRpcAdapter::decode_monitor_reply` (proto_rpc_adapter.cpp:268-272). -/
def decode_monitor_reply (c : Compressor) (p : ProtoCodec α) (ret : List FRT_Value) :
    ClientDecodeResult α × Nat :=
  decode_reply c p ret

/-- Embedding of `SearchReply::Coverage` (searchreply.h:31-66). -/
structure Coverage where
  covered : Nat
  active : Nat
  soonActive : Nat
  degradeReason : Nat
  nodesQueried : Nat
  nodesReplied : Nat
deriving DecidableEq

namespace Coverage

def MATCH_PHASE : Nat := 0x01

def TIMEOUT : Nat := 0x02

def ADAPTIVE_TIMEOUT : Nat := 0x04

/-- The two-argument constructor `Coverage(uint64_t active, uint64_t covered)`. -/
def initActiveCovered (active covered : Nat) : Coverage :=
  { covered := covered, active := active, soonActive := active
    degradeReason := 0, nodesQueried := 1, nodesReplied := 1 }

/-- The one-argument constructor `Coverage(uint64_t active) : Coverage(active, active)`. -/
def initActive (active : Nat) : Coverage :=
  initActiveCovered active active

/-- The default constructor `Coverage() : Coverage(0)`. -/
def initDefault : Coverage :=
  initActive 0

def getCovered (c : Coverage) : Nat := c.covered

def getActive (c : Coverage) : Nat := c.active

def getSoonActive (c : Coverage) : Nat := c.soonActive

def getDegradeReason (c : Coverage) : Nat := c.degradeReason

def getNodesQueried (c : Coverage) : Nat := c.nodesQueried

def getNodesReplied (c : Coverage) : Nat := c.nodesReplied

def wasDegradedByMatchPhase (c : Coverage) : Bool :=
  c.degradeReason &&& MATCH_PHASE != 0

def wasDegradedByTimeout (c : Coverage) : Bool :=
  c.degradeReason &&& TIMEOUT != 0

def setCovered (c : Coverage) (v : Nat) : Coverage := { c with covered := v }

def setActive (c : Coverage) (v : Nat) : Coverage := { c with active := v }

def setSoonActive (c : Coverage) (v : Nat) : Coverage := { c with soonActive := v }

def setDegradeReason (c : Coverage) (v : Nat) : Coverage := { c with degradeReason := v }

def setNodesQueried (c : Coverage) (v : Nat) : Coverage := { c with nodesQueried := v }

def setNodesReplied (c : Coverage) (v : Nat) : Coverage := { c with nodesReplied := v }

def degradeMatchPhase (c : Coverage) : Coverage :=
  { c with degradeReason := c.degradeReason ||| MATCH_PHASE }

def degradeTimeout (c : Coverage) : Coverage :=
  { c with degradeReason := c.degradeReason ||| TIMEOUT }

def degradeAdaptiveTimeout (c : Coverage) : Coverage :=
  { c with degradeReason := c.degradeReason ||| ADAPTIVE_TIMEOUT }

/-- The invariants claimed by the spec for a Coverage record:
`covered ≤ active` and `nodesReplied ≤ nodesQueried`. -/
def inv (c : Coverage) : Prop :=
  c.getCovered ≤ c.getActive ∧ c.getNodesReplied ≤ c.getNodesQueried

instance (c : Coverage) : Decidable c.inv := by
  unfold inv
  infer_instance

end Coverage

/-- Bitmask ordering: every bit set in `m` is also set in `n`. -/
def maskLe (m n : Nat) : Prop :=
  ∀ i, m.testBit i = true → n.testBit i = true

/-! Helper lemmas about the concrete instantiations. -/

theorem rawCompressor_lossless : rawCompressor.lossless := by
  intro cfg b
  rfl

theorem rawCompressor_typeIsByte : rawCompressor.typeIsByte := by
  intro cfg b
  norm_num [rawCompressor, Compressor.typeIsByte]

theorem unaryCodec_faithful : unaryCodec.faithful := by
  intro m
  simp [unaryCodec, List.all_eq_true]

/-! Claim theorems. -/

/-- C10: for every value `active`, `Coverage(active)` yields
`covered = active`, `soonActive = active`, `degradeReason = 0`,
`nodesQueried = 1` and `nodesReplied = 1`, and the zero-argument
constructor equals `Coverage(0)` — so a default-constructed Coverage
already claims one node queried and one node replied. -/
theorem coverage_ctor_fields :
    (∀ active : Nat,
      (Coverage.initActive active).getCovered = active ∧
      (Coverage.initActive active).getSoonActive = active ∧
      (Coverage.initActive active).getDegradeReason = 0 ∧
      (Coverage.initActive active).getNodesQueried = 1 ∧
      (Coverage.initActive active).getNodesReplied = 1) ∧
    Coverage.initDefault = Coverage.initActive 0 :=
  ⟨fun _ => ⟨rfl, rfl, rfl, rfl, rfl⟩, rfl⟩

/-- C6 counterexample: the claimed invariants do not hold under every
Coverage operation.  `Coverage(0).setCovered(5)` has `covered = 5 > 0 = active`,
`Coverage().setNodesReplied(4)` has `nodesReplied = 4 > 1 = nodesQueried`,
and `setDegradeReason(0)` clears a degrade bit previously set by
`degradeMatchPhase()`. -/
theorem coverage_setters_break_invariants_cex :
    ¬ ((Coverage.initActive 0).setCovered 5).inv ∧
    ¬ (Coverage.initDefault.setNodesReplied 4).inv ∧
    Coverage.initDefault.degradeMatchPhase.wasDegradedByMatchPhase = true ∧
    (Coverage.initDefault.degradeMatchPhase.setDegradeReason 0).wasDegradedByMatchPhase
      = false := by
  decide

/-- C6 amended: the zero- and one-argument constructors establish
`covered ≤ active` and `nodesReplied ≤ nodesQueried`, the three dedicated
degrade operations preserve these inequalities, and they only grow the
degrade-reason bitmask (never clear bits); the plain setters, however, do
not enforce any of this. -/
theorem coverage_ctor_inv_degrade_monotone :
    (∀ a : Nat, (Coverage.initActive a).inv) ∧
    Coverage.initDefault.inv ∧
    (∀ c : Coverage, c.inv →
      c.degradeMatchPhase.inv ∧ c.degradeTimeout.inv ∧ c.degradeAdaptiveTimeout.inv) ∧
    (∀ c : Coverage,
      maskLe c.getDegradeReason c.degradeMatchPhase.getDegradeReason ∧
      maskLe c.getDegradeReason c.degradeTimeout.getDegradeReason ∧
      maskLe c.getDegradeReason c.degradeAdaptiveTimeout.getDegradeReason) := by
  refine ⟨fun a => ⟨le_refl a, le_refl 1⟩, ⟨le_refl 0, le_refl 1⟩, ?_, ?_⟩
  · intro c h
    exact ⟨h, h, h⟩
  · intro c
    refine ⟨?_, ?_, ?_⟩ <;> intro i hi <;>
      simp only [Coverage.degradeMatchPhase, Coverage.degradeTimeout,
        Coverage.degradeAdaptiveTimeout, Coverage.getDegradeReason,
        Nat.testBit_or, Bool.or_eq_true] <;>
      exact Or.inl hi

/-- Witness for the amended C6 theorem at a concrete Coverage value. -/
theorem coverage_ctor_inv_degrade_monotone_witness :
    (Coverage.initActive 2).degradeMatchPhase.inv ∧
    (Coverage.initActive 2).degradeTimeout.inv :=
  ⟨(coverage_ctor_inv_degrade_monotone.2.2.1 (Coverage.initActive 2) (by decide)).1,
   (coverage_ctor_inv_degrade_monotone.2.2.1 (Coverage.initActive 2) (by decide)).2.1⟩

/-- C9: for every message, the `uncompressed_size` field written by
`encode_message` equals the exact byte length of the serialized message
before compression (the `AddInt32` write truncates to `u32`, so the length
must fit the wire field). -/
theorem encode_size_field_exact (c : Compressor) (p : ProtoCodec α)
    (cfg : CompressionConfig) (m : α)
    (h : (p.serializeAsString m).length < 2 ^ 32) :
    (encode_message c p cfg m).uncompressed_size = (p.serializeAsString m).length := by
  have hs : (encode_message c p cfg m).uncompressed_size =
      (p.serializeAsString m).length % 2 ^ 32 := rfl
  rw [hs, Nat.mod_eq_of_lt h]

/-- Witness for C9 at a concrete message. -/
theorem encode_size_field_exact_witness :
    (unaryCodec.serializeAsString 3).length < 2 ^ 32 ∧
    (encode_message rawCompressor unaryCodec cfg0 3).uncompressed_size =
      (unaryCodec.serializeAsString 3).length :=
  ⟨by decide, encode_size_field_exact rawCompressor unaryCodec cfg0 3 (by decide)⟩

/-- C7: for every message of any of the request/reply kinds (the generic
codec is shared by all three) and every compressor and configuration
satisfying the external contracts, decoding the envelope produced by
encoding the message yields the message back. -/
theorem codec_round_trip (c : Compressor) (p : ProtoCodec α)
    (hl : c.lossless) (ht : c.typeIsByte) (hf : p.faithful)
    (cfg : CompressionConfig) (m : α)
    (hsize : (p.serializeAsString m).length < 2 ^ 32) :
    decode_message c p (encode_message c p cfg m) = .ok m := by
  have h1 : (c.compress cfg (p.serializeAsString m)).1 % 256 =
      (c.compress cfg (p.serializeAsString m)).1 := Nat.mod_eq_of_lt (ht cfg _)
  have h2 : (p.serializeAsString m).length % 2 ^ 32 = (p.serializeAsString m).length :=
    Nat.mod_eq_of_lt hsize
  simp only [encode_message, decode_message, h1, h2]
  rw [hl cfg (p.serializeAsString m)]
  simp [hf m]

/-- Witness for C7 at a concrete message with the raw compressor. -/
theorem codec_round_trip_witness :
    rawCompressor.lossless ∧ rawCompressor.typeIsByte ∧ unaryCodec.faithful ∧
    (unaryCodec.serializeAsString 2).length < 2 ^ 32 ∧
    decode_message rawCompressor unaryCodec
      (encode_message rawCompressor unaryCodec cfg0 2) = .ok 2 :=
  ⟨rawCompressor_lossless, rawCompressor_typeIsByte, unaryCodec_faithful, by decide,
   codec_round_trip rawCompressor unaryCodec rawCompressor_lossless
     rawCompressor_typeIsByte unaryCodec_faithful cfg0 2 (by decide)⟩

/-- C2 counterexample: the raw envelope with declared size 3 and a 2-byte
payload makes `decode_message` fail its assertion — process termination —
rather than returning the non-fatal decode failure the claim requires. -/
theorem decode_size_mismatch_asserts_cex :
    decode_message rawCompressor unaryCodec ⟨0, 3, [1, 1]⟩ =
      (.assertFailure : DecodeOutcome Nat) ∧
    (DecodeOutcome.assertFailure : DecodeOutcome Nat) ≠ .parseError := by
  decide

/-- C2 amended: a size mismatch (decompressed length differing from the
declared `uncompressed_size`) trips the assertion in `decode_message`,
terminating the process, while a parse failure at matching size is the
non-fatal, logged decode error. -/
theorem decode_size_mismatch_assert_parse_error_nonfatal (c : Compressor)
    (p : ProtoCodec α) (env : Envelope) :
    (env.uncompressed_size ≠
        (c.decompress env.encoding env.uncompressed_size env.payload).length →
      decode_message c p env = .assertFailure) ∧
    (env.uncompressed_size =
        (c.decompress env.encoding env.uncompressed_size env.payload).length →
      p.parseFromArray (c.decompress env.encoding env.uncompressed_size env.payload) = none →
      decode_message c p env = .parseError) := by
  constructor
  · intro h
    unfold decode_message
    rw [if_neg h]
  · intro h1 h2
    unfold decode_message
    rw [if_pos h1, h2]

/-- Witness for the amended C2 theorem at the mismatched envelope. -/
theorem decode_size_mismatch_assert_parse_error_nonfatal_witness :
    (3 : Nat) ≠ (rawCompressor.decompress 0 3 [1, 1]).length ∧
    decode_message rawCompressor unaryCodec ⟨0, 3, [1, 1]⟩ =
      (.assertFailure : DecodeOutcome Nat) :=
  ⟨by decide,
   (decode_size_mismatch_assert_parse_error_nonfatal rawCompressor unaryCodec
      ⟨0, 3, [1, 1]⟩).1 (by decide)⟩

/-- C3 counterexample: a search decoder constructed at time 0 whose
`decode()` runs at time 7 produces a request whose clock snapshot is 0
(the construction/dispatch moment), not 7 (the decode moment). -/
theorem clock_captured_at_construction_cex :
    (search_request_decoder ⟨0, 1, [1]⟩ 0).decode rawCompressor unaryCodec id 7 =
      .request { relative_time := { start := 0 }, fields := 1 } ∧
    (0 : Nat) ≠ 7 := by
  decide

/-- C3 amended: the domain request carries the clock snapshot captured when
the decoder was constructed (at dispatch), which `decode()` merely moves
into the request; the moment `decode()` actually runs plays no role. -/
theorem clock_snapshot_at_decoder_construction (c : Compressor) (p : ProtoCodec α)
    (conv : α → β) (params : Envelope) (tConstruct tDecode : Nat) :
    (∀ r, (search_request_decoder params tConstruct).decode c p conv tDecode =
        .request r → r.relative_time.start = tConstruct) ∧
    (∀ r, (docsum_request_decoder params tConstruct).decode c p conv tDecode =
        .request r → r.relative_time.start = tConstruct) ∧
    (∀ t1 t2 : Nat, (search_request_decoder params tConstruct).decode c p conv t1 =
        (search_request_decoder params tConstruct).decode c p conv t2) ∧
    (∀ t1 t2 : Nat, (docsum_request_decoder params tConstruct).decode c p conv t1 =
        (docsum_request_decoder params tConstruct).decode c p conv t2) := by
  refine ⟨?_, ?_, fun t1 t2 => rfl, fun t1 t2 => rfl⟩
  · intro r h
    simp only [SearchRequestDecoder.decode, search_request_decoder] at h
    cases hd : decode_message c p params <;> rw [hd] at h
    · cases h
      rfl
    · cases h
    · cases h
  · intro r h
    simp only [DocsumRequestDecoder.decode, docsum_request_decoder] at h
    cases hd : decode_message c p params <;> rw [hd] at h
    · cases h
      rfl
    · cases h
    · cases h

/-- Witness for the amended C3 theorem: decoder built at time 5, decode run
at time 9, request snapshot is 5. -/
theorem clock_snapshot_at_decoder_construction_witness :
    (search_request_decoder ⟨0, 1, [1]⟩ 5).decode rawCompressor unaryCodec id 9 =
      .request { relative_time := { start := 5 }, fields := 1 } ∧
    ({ relative_time := { start := 5 }, fields := 1 } :
        SearchRequest Nat).relative_time.start = 5 :=
  ⟨by decide,
   (clock_snapshot_at_decoder_construction rawCompressor unaryCodec id
      ⟨0, 1, [1]⟩ 5 9).1 _ (by decide)⟩

/-- C5 counterexample: a corrupted envelope whose declared size disagrees
with its payload length does not make `decode()` return an absent request —
it trips the assertion inside `decode_message` instead. -/
theorem decoder_size_mismatch_not_absent_cex :
    (search_request_decoder ⟨0, 3, [1, 1]⟩ 0).decode rawCompressor unaryCodec id 0 =
      (.fatal : DecodeResult (SearchRequest Nat)) ∧
    (DecodeResult.fatal : DecodeResult (SearchRequest Nat)) ≠ .absent := by
  decide

/-- C5 amended: for every envelope on which `decode_message` reports a
parse failure, both decoders return an absent request, and whenever a
decoder returns a request it is the full conversion of a successfully
decoded message — never a partial decode; size-mismatch corruption instead
trips the assertion inside `decode_message`. -/
theorem decoder_parse_failure_absent_never_invalid (c : Compressor) (p : ProtoCodec α)
    (conv : α → β) (params : Envelope) (t tD : Nat) :
    (decode_message c p params = .parseError →
      (search_request_decoder params t).decode c p conv tD = .absent ∧
      (docsum_request_decoder params t).decode c p conv tD = .absent) ∧
    (∀ r, (search_request_decoder params t).decode c p conv tD = .request r →
      ∃ msg, decode_message c p params = .ok msg ∧
        r = { relative_time := { start := t }, fields := conv msg }) ∧
    (∀ r, (docsum_request_decoder params t).decode c p conv tD = .request r →
      ∃ msg, decode_message c p params = .ok msg ∧
        r = { relative_time := { start := t }, useRootSlime := true,
              fields := conv msg }) := by
  refine ⟨?_, ?_, ?_⟩
  · intro h
    constructor
    · simp only [SearchRequestDecoder.decode, search_request_decoder]
      rw [h]
    · simp only [DocsumRequestDecoder.decode, docsum_request_decoder]
      rw [h]
  · intro r h
    simp only [SearchRequestDecoder.decode, search_request_decoder] at h
    cases hd : decode_message c p params <;> rw [hd] at h
    · cases h
      exact ⟨_, rfl, rfl⟩
    · cases h
    · cases h
  · intro r h
    simp only [DocsumRequestDecoder.decode, docsum_request_decoder] at h
    cases hd : decode_message c p params <;> rw [hd] at h
    · cases h
      exact ⟨_, rfl, rfl⟩
    · cases h
    · cases h

/-- Witness for the amended C5 theorem at an envelope whose payload fails
to parse (declared size matches, byte 5 is not a valid serialized byte). -/
theorem decoder_parse_failure_absent_never_invalid_witness :
    decode_message rawCompressor unaryCodec ⟨0, 1, [5]⟩ =
      (.parseError : DecodeOutcome Nat) ∧
    (search_request_decoder ⟨0, 1, [5]⟩ 0).decode rawCompressor unaryCodec id 0 =
      (.absent : DecodeResult (SearchRequest Nat)) ∧
    (docsum_request_decoder ⟨0, 1, [5]⟩ 0).decode rawCompressor unaryCodec id 0 =
      (.absent : DecodeResult (DocsumRequest Nat)) :=
  ⟨by decide,
   ((decoder_parse_failure_absent_never_invalid rawCompressor unaryCodec id
       ⟨0, 1, [5]⟩ 0 0).1 (by decide)).1,
   ((decoder_parse_failure_absent_never_invalid rawCompressor unaryCodec id
       ⟨0, 1, [5]⟩ 0 0).1 (by decide)).2⟩

/-- C4 counterexample: a ping payload whose declared size disagrees with
its length fails to decode, yet the adapter does not answer with the
"malformed monitor request" method error — the assertion inside
`decode_message` fires first. -/
theorem rpc_ping_size_mismatch_no_method_error_cex :
    rpc_ping rawCompressor unaryCodec unaryCodec cfg0 (id : Nat → Nat)
      (id : Nat → Nat) (fun _ => (none : Option Nat)) ⟨0, 3, [1, 1]⟩ =
      (.fatal, false) ∧
    PingOutcome.fatal ≠ .methodError .methodFailed "malformed monitor request" := by
  decide

/-- C4 amended: for every ping call whose payload fails to parse
(`decode_message` returns false), the adapter answers immediately with a
call-level method error whose message is exactly "malformed monitor
request", produces no reply envelope, and never invokes the monitor domain
server; a size-mismatched payload instead trips the assertion inside
`decode_message`. -/
theorem rpc_ping_parse_failure_method_error (c : Compressor) (p : ProtoCodec α)
    (q : ProtoCodec τ) (cfg : CompressionConfig) (conv : α → β) (rtp : ρ → τ)
    (server : β → Option ρ) (params : Envelope)
    (h : decode_message c p params = .parseError) :
    rpc_ping c p q cfg conv rtp server params =
      (.methodError .methodFailed "malformed monitor request", false) := by
  unfold rpc_ping
  rw [h]

/-- Witness for the amended C4 theorem at a ping payload that fails to parse. -/
theorem rpc_ping_parse_failure_method_error_witness :
    decode_message rawCompressor unaryCodec ⟨0, 1, [5]⟩ =
      (.parseError : DecodeOutcome Nat) ∧
    rpc_ping rawCompressor unaryCodec unaryCodec cfg0 (id : Nat → Nat)
      (id : Nat → Nat) (fun _ => (none : Option Nat)) ⟨0, 1, [5]⟩ =
      (.methodError .methodFailed "malformed monitor request", false) :=
  ⟨by decide,
   rpc_ping_parse_failure_method_error rawCompressor unaryCodec unaryCodec cfg0
     id id (fun _ => none) ⟨0, 1, [5]⟩ (by decide)⟩

/-- C8: every client-side reply decode function fails without running the
decompressor when the completed call's return shape is not `(u8, i32, bytes)`,
and when the shape matches it decodes the envelope into the wire-level
reply via `decode_message`. -/
theorem client_reply_decode_shape_gate (c : Compressor) (p : ProtoCodec α) :
    (∀ ret, CheckReturnTypes ret bixSpec = false →
      decode_search_reply c p ret = (.shapeError, 0) ∧
      decode_docsum_reply c p ret = (.shapeError, 0) ∧
      decode_monitor_reply c p ret = (.shapeError, 0)) ∧
    (∀ e s bytes,
      decode_search_reply c p [.int8 e, .int32 s, .data bytes] =
        (toClientResult (decode_message c p ⟨e, s, bytes⟩), 1) ∧
      decode_docsum_reply c p [.int8 e, .int32 s, .data bytes] =
        (toClientResult (decode_message c p ⟨e, s, bytes⟩), 1) ∧
      decode_monitor_reply c p [.int8 e, .int32 s, .data bytes] =
        (toClientResult (decode_message c p ⟨e, s, bytes⟩), 1)) := by
  constructor
  · intro ret h
    refine ⟨?_, ?_, ?_⟩ <;>
      simp [decode_search_reply, decode_docsum_reply, decode_monitor_reply,
        decode_reply, h]
  · intro e s bytes
    have hc : CheckReturnTypes [FRT_Value.int8 e, .int32 s, .data bytes] bixSpec
        = true := rfl
    refine ⟨?_, ?_, ?_⟩ <;>
      simp [decode_search_reply, decode_docsum_reply, decode_monitor_reply,
        decode_reply, hc]

/-- Witness for C8 at a completed call whose return shape is `(u8, i32, i64)`
(the spec's Scenario C): failure, zero decompressor runs. -/
theorem client_reply_decode_shape_gate_witness :
    CheckReturnTypes [FRT_Value.int8 0, FRT_Value.int32 0, FRT_Value.int64 7]
      bixSpec = false ∧
    decode_search_reply rawCompressor unaryCodec
      [FRT_Value.int8 0, FRT_Value.int32 0, FRT_Value.int64 7] = (.shapeError, 0) :=
  ⟨by decide,
   ((client_reply_decode_shape_gate rawCompressor unaryCodec).1
      [FRT_Value.int8 0, FRT_Value.int32 0, FRT_Value.int64 7] (by decide)).1⟩

/-- C1: for each dispatched search or docsum call, the adapter invokes the
completion handler inline exactly when the domain server returned a
non-null reply synchronously; under the domain-server contract (the server
completes asynchronously exactly once iff it returned null) the handler is
finalized exactly once per call overall. -/
theorem rpc_dispatch_finalize_exactly_once (σ : Type) (s : DomainServerModel σ)
    (h : s.contractOK) :
    (inlineFinalizeCount (rpc_search s) = (if s.syncReply.isSome then 1 else 0) ∧
     inlineFinalizeCount (rpc_search s) + s.asyncFinalizes = 1) ∧
    (inlineFinalizeCount (rpc_getDocsums s) = (if s.syncReply.isSome then 1 else 0) ∧
     inlineFinalizeCount (rpc_getDocsums s) + s.asyncFinalizes = 1) := by
  unfold DomainServerModel.contractOK at h
  cases hr : s.syncReply <;>
    rw [hr] at h <;>
    simp [rpc_search, rpc_getDocsums, inlineFinalizeCount, hr, h]

/-- Witness for C1 with a contract-respecting server that replies
synchronously. -/
theorem rpc_dispatch_finalize_exactly_once_witness :
    DomainServerModel.contractOK (⟨some 3, 0⟩ : DomainServerModel Nat) ∧
    inlineFinalizeCount (rpc_search (⟨some 3, 0⟩ : DomainServerModel Nat)) +
      (⟨some 3, 0⟩ : DomainServerModel Nat).asyncFinalizes = 1 :=
  ⟨rfl,
   ((rpc_dispatch_finalize_exactly_once Nat ⟨some 3, 0⟩ rfl).1).2⟩

end Vespa
